import Mathlib

/-!
Verification development for the Reog Ponorogo guide backend.

The Python sources are shallowly embedded:
* strings are Lean `String`s (Python `len`, slicing and comparisons act on
  characters, as in Python 3);
* the sources' float similarity scores are modelled exactly as rationals;
* calls to external collaborators (ChromaDB, the Ollama HTTP endpoint) are
  modelled by passing their reply — or the exception they raised — as an
  explicit argument of type `Except String _`;
* wall-clock timing values are outside the embedding and are omitted from
  the response records.
-/

set_option maxRecDepth 100000
set_option maxHeartbeats 4000000

/-! ### Python string primitives -/

/-- Python whitespace characters, as used by `str.strip`, `str.split` and
the regex class `\s` (the sources only ever feed ASCII text to these). -/
def pyWsChar (c : Char) : Bool :=
  c = (' ') || c = ('\t') || c = ('\n') || c = ('\r') ||
  c = (Char.ofNat 11) || c = (Char.ofNat 12)

/-- `str.strip()` on a character list. -/
def pyStripL (cs : List Char) : List Char :=
  (((cs.dropWhile pyWsChar).reverse).dropWhile pyWsChar).reverse

/-- Python `str.strip()`. -/
def pyStrip (s : String) : String :=
  String.mk (pyStripL s.data)

/-- Helper for `str.split()` (whitespace split, empties discarded);
`cur` is the current word accumulated in reverse. -/
def pySplitAux : List Char → List Char → List (List Char)
  | [], cur => if cur = [] then [] else [cur.reverse]
  | c :: rest, cur =>
    if pyWsChar c then
      if cur = [] then pySplitAux rest [] else cur.reverse :: pySplitAux rest []
    else pySplitAux rest (c :: cur)

/-- Python `str.split()` with no argument: split on whitespace runs,
discarding empty strings. -/
def pySplit (s : String) : List String :=
  (pySplitAux s.data []).map String.mk

/-- ASCII lowercasing of one character (Python `str.lower` restricted to
the ASCII inputs occurring in this code base). -/
def pyLowerC (c : Char) : Char :=
  if ('A') ≤ c ∧ c ≤ ('Z') then Char.ofNat (c.toNat + 32) else c

/-- Python `str.lower()` on a character list. -/
def pyLowerL (cs : List Char) : List Char := cs.map pyLowerC

/-- Python `str.lower()`. -/
def pyLower (s : String) : String := String.mk (pyLowerL s.data)

/-- ASCII uppercasing of one character. -/
def pyUpperC (c : Char) : Char :=
  if ('a') ≤ c ∧ c ≤ ('z') then Char.ofNat (c.toNat - 32) else c

/-- Python `str.isupper()` on a single ASCII character. -/
def pyIsUpperC (c : Char) : Bool :=
  ('A') ≤ c && c ≤ ('Z')

/-- Python substring containment `needle in hay`. -/
def pyContainsL : List Char → List Char → Bool
  | hay, needle =>
    needle.isPrefixOf hay ||
      match hay with
      | [] => false
      | _ :: t => pyContainsL t needle

/-- Worker for Python `str.replace`: `fuel` bounds the number of steps;
`hay.length` is always sufficient because every step consumes at least
one character of `hay` (the structural fuel keeps the definition
kernel-reducible). -/
def pyReplaceGo (needle repl : List Char) : Nat → List Char → List Char
  | _, [] => []
  | 0, hay => hay
  | fuel + 1, c :: t =>
    if needle ≠ [] ∧ needle.isPrefixOf (c :: t) then
      repl ++ pyReplaceGo needle repl fuel ((c :: t).drop needle.length)
    else
      c :: pyReplaceGo needle repl fuel t

/-- Python `str.replace(needle, repl)`: replace every occurrence,
left-to-right, non-overlapping.  (All call sites use non-empty needles;
for an empty needle we return the text unchanged.) -/
def pyReplaceL (hay needle repl : List Char) : List Char :=
  pyReplaceGo needle repl hay.length hay

/-- Python `str.replace` on strings. -/
def pyReplace (hay needle repl : String) : String :=
  String.mk (pyReplaceL hay.data needle.data repl.data)

/-- Case-insensitive literal substitution: `re.sub(pat, repl, hay,
flags=re.IGNORECASE)` where `pat` is an already-lowercased literal pattern
with no regex metacharacters (the normalizer's terms are letters and
spaces only).  Matches are found left-to-right, non-overlapping. -/
def pyISubGo (pat repl : List Char) : Nat → List Char → List Char
  | _, [] => []
  | 0, hay => hay
  | fuel + 1, c :: t =>
    if pat ≠ [] ∧ pyLowerL ((c :: t).take pat.length) = pat then
      repl ++ pyISubGo pat repl fuel ((c :: t).drop pat.length)
    else
      c :: pyISubGo pat repl fuel t

def pyISubL (hay pat repl : List Char) : List Char :=
  pyISubGo pat repl hay.length hay

/-- Python lexicographic string comparison `a < b` (by code point). -/
def pyStrLtL : List Char → List Char → Bool
  | [], [] => false
  | [], _ :: _ => true
  | _ :: _, [] => false
  | a :: as, b :: bs =>
    if a.toNat < b.toNat then true
    else if b.toNat < a.toNat then false
    else pyStrLtL as bs

/-- Python `str.startswith`. -/
def pyStartsWith (s pre : String) : Bool :=
  pre.data.isPrefixOf s.data

/-- Decimal digits of a natural number, most significant first, as
characters (`str(n)` / the digits of `f-string` formatting in Python). -/
def natDecimalGo : Nat → Nat → List Char
  | 0, n => [Char.ofNat (48 + n)]
  | fuel + 1, n =>
    if n < 10 then [Char.ofNat (48 + n)]
    else natDecimalGo fuel (n / 10) ++ [Char.ofNat (48 + n % 10)]

def natDecimal (n : Nat) : List Char :=
  natDecimalGo n n

/-- Decode a decimal digit string (left inverse of `natDecimal`). -/
def decodeNat (cs : List Char) : Nat :=
  cs.foldl (fun a c => 10 * a + (c.toNat - 48)) 0

/-! ### TextNormalizer (src/text_normalizer.py)

The fuzzy stage uses Python's `difflib.get_close_matches`, which is part
of the standard library; it is embedded below exactly (Ratcliff–Obershelp
matching with difflib's tie-breaking, similarity ratios as exact
rationals).  The sequences involved are far shorter than 200 characters,
so difflib's autojunk heuristic never fires and is omitted. -/

/-- `TextNormalizer.replacements`: known misheard/misspelled terms and
their correct forms, in the source's (insertion-ordered) dict order. -/
def replacements : List (String × String) :=
  [(("riyadh ponderogo"), ("Reog Ponorogo")),
   (("reog ponderogo"), ("Reog Ponorogo")),
   (("reok ponorogo"), ("Reog Ponorogo")),
   (("reog ponorogo"), ("Reog Ponorogo")),
   (("ponorogo reg"), ("Reog Ponorogo")),
   (("reog"), ("Reog")),
   (("ponorogo"), ("Ponorogo")),
   (("klono sewandono"), ("Raja Klono Sewandono")),
   (("bantarangin"), ("Kerajaan Bantarangin")),
   (("kediri"), ("Kerajaan Kediri")),
   (("ragil kuning"), ("Dewi Ragil Kuning")),
   (("putri sanggalangit"), ("Putri Sanggalangit")),
   (("singabarong"), ("Raja Singabarong")),
   (("bujanganom"), ("Bujanganom")),
   (("warok"), ("Warok")),
   (("dadak merak"), ("Dadak Merak")),
   (("ganongan"), ("Ganongan")),
   (("bujang ganong"), ("Bujang Ganong")),
   (("jaran kepang"), ("Jaran Kepang")),
   (("jathilan"), ("Jathilan")),
   (("pecut"), ("Pecut")),
   (("cemeti"), ("Cemeti")),
   (("barongan"), ("Barongan")),
   (("gamelan"), ("Gamelan")),
   (("angklung reog"), ("Angklung Reog")),
   (("terompet reog"), ("Terompet Reog")),
   (("kongkil"), ("Kongkil")),
   (("kendang"), ("Kendang")),
   (("saron"), ("Saron")),
   (("gong"), ("Gong")),
   (("kempul"), ("Kempul")),
   (("unesco"), ("UNESCO")),
   (("creative cities network"), ("Creative Cities Network")),
   (("museum reog ponorogo"), ("Museum Reog Ponorogo"))]

/-- `TextNormalizer.important_terms`: cultural terms whose capitalization
is enforced, in source order. -/
def important_terms : List String :=
  [("Reog Ponorogo"), ("Ponorogo"), ("Raja Klono Sewandono"),
   ("Kerajaan Bantarangin"), ("Kerajaan Kediri"), ("Dewi Ragil Kuning"),
   ("Putri Sanggalangit"), ("Raja Singabarong"), ("Bujanganom"),
   ("Warok"), ("Dadak Merak"), ("Ganongan"), ("Bujang Ganong"),
   ("Jaran Kepang"), ("Jathilan"), ("Pecut"), ("Cemeti"), ("Barongan"),
   ("Gamelan"), ("Angklung Reog"), ("Terompet Reog"), ("Kongkil"),
   ("Kendang"), ("Saron"), ("Gong"), ("Kempul"), ("UNESCO"),
   ("Creative Cities Network"), ("Museum Reog Ponorogo")]

/-- `TextNormalizer.normalize_case`. -/
def normalize_case (text : String) : String := pyLower text

/-- `TextNormalizer.remove_unwanted_chars`:
`re.sub(r"[^a-zA-Z0-9\s.,!?]", "", text)`. -/
def remove_unwanted_chars (text : String) : String :=
  String.mk (text.data.filter fun c =>
    (('a') ≤ c && c ≤ ('z')) || (('A') ≤ c && c ≤ ('Z')) ||
    (('0') ≤ c && c ≤ ('9')) || pyWsChar c ||
    c = ('.') || c = (',') || c = ('!') || c = ('?'))

/-- `TextNormalizer.apply_dictionary`: sequentially apply every
replacement, in dict order. -/
def apply_dictionary (text : String) : String :=
  replacements.foldl (fun t p => pyReplace t p.1 p.2) text

/-- Length of the common prefix of two character lists. -/
def cplL : List Char → List Char → Nat
  | a :: as, b :: bs => if a = b then cplL as bs + 1 else 0
  | _, _ => 0

/-- Size of the longest matching block of `a` and `b` that starts at
position `i` of `a` and `j` of `b`. -/
def blockAt (a b : List Char) (i j : Nat) : Nat :=
  cplL (a.drop i) (b.drop j)

/-- Size of the longest matching block of `a` and `b`
(difflib `find_longest_match`, size component). -/
def maxBlock (a b : List Char) : Nat :=
  ((List.range a.length).map fun i =>
    ((List.range b.length).map fun j => blockAt a b i j).foldr max 0).foldr max 0

/-- The first (lexicographically smallest `(i, j)`) start of a matching
block of size `k`; difflib's `find_longest_match` returns exactly this
pair when `k` is the maximal block size. -/
def findIJ (a b : List Char) (k : Nat) : Nat × Nat :=
  match (List.range a.length).findSome? (fun i =>
      ((List.range b.length).find? fun j => blockAt a b i j = k).map
        fun j => (i, j)) with
  | some p => p
  | none => (0, 0)

/-- Total size of difflib's matching blocks: recursively take the longest
block and recurse on the parts to its left and right.  `fuel` bounds the
recursion depth; `a.length + b.length` is always sufficient since every
recursive call strictly shrinks the combined length. -/
def matchTotal : Nat → List Char → List Char → Nat
  | 0, _, _ => 0
  | fuel + 1, a, b =>
    let k := maxBlock a b
    if k = 0 then 0
    else
      let ij := findIJ a b k
      matchTotal fuel (a.take ij.1) (b.take ij.2) + k +
        matchTotal fuel (a.drop (ij.1 + k)) (b.drop (ij.2 + k))

/-- difflib `get_close_matches(word, terms, n=1, cutoff)` with the
cutoff given as the exact fraction `cutoffNum / cutoffDen`.  A term `t`
qualifies when its similarity ratio `2*M/T` (with `M` the total matched
size and `T` the combined length) is at least the cutoff; all ratio
comparisons are carried out by cross-multiplication in `ℕ`, which is
exact — difflib's float comparison agrees because a ratio can only tie
the cutoff when it equals the same binary double.  difflib's
`real_quick_ratio`/`quick_ratio` pre-filters are upper bounds of the
ratio and cannot change the outcome; the cheap length-based one is kept
to limit evaluation cost.  Of the qualifying terms the one with the
largest `(ratio, term)` pair is returned — `heapq.nlargest` on
`(score, term)` tuples breaks ratio ties towards the lexicographically
larger term.  (`T = 0` never occurs: words produced by `str.split()`
are non-empty.) -/
def getCloseMatch1 (word : List Char) (terms : List (List Char))
    (cutoffNum cutoffDen : Nat) : Option (List Char) :=
  (terms.foldl (fun best t =>
    let T := t.length + word.length
    -- real_quick_ratio upper bound 2*min(la,lb)/T < cutoff: skip early
    if 2 * min t.length word.length * cutoffDen < cutoffNum * T then best
    else
      let M := matchTotal T t word
      if cutoffNum * T ≤ 2 * M * cutoffDen then
        match best with
        | none => some (M, T, t)
        | some (bM, bT, bt) =>
          -- (2M/T, t) beats (2bM/bT, bt) lexicographically
          if bM * T < M * bT ∨ (bM * T = M * bT ∧ pyStrLtL bt t) then
            some (M, T, t)
          else best
      else best) (none : Option (Nat × Nat × List Char))).map
    (fun p => p.2.2)

/-- `TextNormalizer.fuzzy_replace` with its default cutoff `0.8 = 4/5`:
replace each whitespace-delimited word by its closest canonical term
when the similarity reaches the cutoff. -/
def fuzzy_replace (text : String) : String :=
  String.intercalate (" ") ((pySplit text).map fun w =>
    match getCloseMatch1 w.data (important_terms.map String.data) 4 5 with
    | some t => String.mk t
    | none => w)

/-- `TextNormalizer.capitalize_terms`: for every important term,
case-insensitively rewrite its occurrences to the canonical spelling. -/
def capitalize_terms (text : String) : String :=
  important_terms.foldl
    (fun t term => String.mk (pyISubL t.data (pyLowerL term.data) term.data))
    text

/-- `TextNormalizer.normalize`: the five-stage pipeline followed by a
final strip. -/
def TextNormalizer.normalize (text : String) : String :=
  let step1 := normalize_case text
  let step2 := remove_unwanted_chars step1
  let step3 := apply_dictionary step2
  let step4 := fuzzy_replace step3
  let step5 := capitalize_terms step4
  pyStrip step5

/-- The canonical terms on which `normalize` is not idempotence-stable:
their replacement-dictionary key is a proper substring of the canonical
form (or, for `"Putri Sanggalangit"`, the fuzzy stage maps the word
`"Sanggalangit"` to the full two-word term), so each `normalize` pass
prepends a duplicate lowercase word. -/
def nonIdempotentTerms : List String :=
  [("Raja Klono Sewandono"), ("Kerajaan Bantarangin"), ("Kerajaan Kediri"),
   ("Dewi Ragil Kuning"), ("Putri Sanggalangit"), ("Raja Singabarong")]

/-! ### Knowledge-base chunker (scripts/prepare_knowledge_base.py) -/

/-- Is the previous character (head of the reversed current segment) a
sentence terminator `.`, `!` or `?` — the lookbehind of the sentence
splitting regex. -/
def isTermRev (cur : List Char) : Bool :=
  match cur with
  | [] => false
  | c :: _ => c = ('.') || c = ('!') || c = ('?')

/-- Worker for `re.split(r'(?<=[.!?])\s+', text)`: `skipping` is true
while consuming the whitespace run of a match, `cur` holds the current
segment in reverse, `acc` the finished segments in reverse. -/
def splitSentencesAux : List Char → Bool → List Char → List (List Char) →
    List (List Char)
  | [], _, cur, acc => (cur.reverse :: acc).reverse
  | c :: rest, skipping, cur, acc =>
    if skipping then
      if pyWsChar c then splitSentencesAux rest true cur acc
      else splitSentencesAux rest false [c] acc
    else if pyWsChar c && isTermRev cur then
      splitSentencesAux rest true [] (cur.reverse :: acc)
    else splitSentencesAux rest false (c :: cur) acc

/-- `re.split(r'(?<=[.!?])\s+', text)`: split at whitespace runs that
follow a sentence terminator (greedy, so each whole run is consumed). -/
def splitSentences (text : String) : List String :=
  (splitSentencesAux text.data false [] []).map String.mk

/-- The chunking loop's state: finished chunks plus the running buffer. -/
structure ChunkState where
  chunks : List String
  current : String
deriving DecidableEq

/-- The last `overlap/5` words used to seed the next chunk:
`words[-overlap//5:] if len(words) > overlap//5 else words` (for
`overlap//5 = 0` the Python slice `words[-0:]` is the whole list). -/
def overlapTail (words : List String) (k : Nat) : List String :=
  if words.length > k then
    if k = 0 then words else words.drop (words.length - k)
  else words

/-- One iteration of `chunk_text`'s sentence loop. -/
def chunkStep (maxSize overlap : Nat) (st : ChunkState)
    (sentence : String) : ChunkState :=
  let sta := sentence ++ (" ")
  if sta.length > maxSize then
    -- an exceptionally long sentence becomes its own chunk
    let chunks :=
      if pyStrip st.current ≠ ("") then st.chunks ++ [pyStrip st.current]
      else st.chunks
    { chunks := chunks ++ [pyStrip sta], current := ("") }
  else if st.current.length + sta.length > maxSize ∧ st.current ≠ ("") then
    -- close the chunk and seed the next one with word-granular overlap
    let words := pySplit st.current
    let ow := overlapTail words (overlap / 5)
    { chunks := st.chunks ++ [pyStrip st.current],
      current := String.intercalate (" ") ow ++ (" ") ++ sta }
  else
    { chunks := st.chunks, current := st.current ++ sta }

/-- `chunk_text`'s post-loop handling of the trailing buffer, the
short-text fallback and the final empty-string filter. -/
def chunkFinish (text : String) (minSize : Nat) (st : ChunkState) :
    List String :=
  let fc := pyStrip st.current
  let chunks :=
    if fc ≠ ("") then
      if fc.length < minSize ∧ st.chunks ≠ [] then
        st.chunks.dropLast ++ [(st.chunks.getLast?.getD ("")) ++ (" ") ++ fc]
      else st.chunks ++ [fc]
    else st.chunks
  let chunks := if chunks = [] then [text] else chunks
  chunks.filter fun c => c ≠ ("")

/-- `KnowledgeBasePreprocessor.chunk_text(text, max_chunk_size, overlap,
min_chunk_size)`. -/
def chunk_text (text : String) (maxSize overlap minSize : Nat) :
    List String :=
  chunkFinish text minSize
    ((splitSentences text).foldl (chunkStep maxSize overlap)
      { chunks := [], current := ("") })

/-- The state of `chunk_text`'s sentence loop after all sentences are
consumed (so that `chunk_text text maxSize overlap minSize =
chunkFinish text minSize (chunkLoopState text maxSize overlap)` by
definition). -/
def chunkLoopState (text : String) (maxSize overlap : Nat) : ChunkState :=
  (splitSentences text).foldl (chunkStep maxSize overlap)
    { chunks := [], current := ("") }

/-- The character budget the spec allows a chunk beyond `max_size`
(modelled from the spec: the characters of "the last `overlap/5` words
of the preceding chunk", joined by spaces, plus the separating space). -/
def specOverlapBudget (prevChunk : String) (overlap : Nat) : Nat :=
  (String.intercalate (" ")
    (overlapTail (pySplit prevChunk) (overlap / 5))).length + 1

/-- Worker for `re.sub(r'\s+', ' ', text)`: each maximal whitespace run
becomes a single space (`inRun` tracks whether we are inside a run). -/
def collapseWsAux : List Char → Bool → List Char
  | [], _ => []
  | c :: t, inRun =>
    if pyWsChar c then
      if inRun then collapseWsAux t true else (' ') :: collapseWsAux t true
    else c :: collapseWsAux t false

/-- A character kept by `clean_text`'s filter
`re.sub(r'[^\w\s\.\,\!\?\-\—\:\;\'\"]', '', text)` (the `\w` class is
modelled for the ASCII texts the knowledge base contains). -/
def cleanKeepChar (c : Char) : Bool :=
  (('a') ≤ c && c ≤ ('z')) || (('A') ≤ c && c ≤ ('Z')) ||
  (('0') ≤ c && c ≤ ('9')) || c = ('_') || pyWsChar c ||
  c = ('.') || c = (',') || c = ('!') || c = ('?') || c = ('-') ||
  c = ('—') || c = (':') || c = (';') || c = ('\'') || c = ('"')

/-- Smart-quote normalization of one character (the four `str.replace`
calls of `clean_text`, each on a single character). -/
def normalizeQuoteChar (c : Char) : Char :=
  if c = ('“') ∨ c = ('”') then ('"')
  else if c = ('‘') ∨ c = ('’') then ('\'') else c

/-- `KnowledgeBasePreprocessor.clean_text`: collapse whitespace, drop
special characters, normalize smart quotes, strip. -/
def clean_text (text : String) : String :=
  pyStrip (String.mk
    (((collapseWsAux text.data false).filter cleanKeepChar).map
      normalizeQuoteChar))

/-- The stopword set of `extract_keywords` (Indonesian and English). -/
def kbStopwords : List String :=
  [("yang"), ("dan"), ("di"), ("ke"), ("dari"), ("untuk"), ("pada"),
   ("dengan"), ("adalah"), ("ini"), ("itu"), ("atau"), ("oleh"),
   ("dalam"), ("akan"), ("telah"), ("dapat"), ("ada"), ("sebagai"),
   ("juga"), ("tidak"), ("mereka"), ("kami"), ("the"), ("a"), ("an"),
   ("in"), ("on"), ("at"), ("to"), ("for"), ("of"), ("and"), ("is"),
   ("are"), ("was"), ("were"), ("be"), ("been"), ("being"), ("have"),
   ("has"), ("had"), ("do"), ("does"), ("did"), ("will"), ("would"),
   ("could"), ("should")]

/-- Is `c` a `\w` word character (ASCII model, as in `cleanKeepChar`). -/
def wordChar (c : Char) : Bool :=
  (('a') ≤ c && c ≤ ('z')) || (('A') ≤ c && c ≤ ('Z')) ||
  (('0') ≤ c && c ≤ ('9')) || c = ('_')

/-- `re.findall(r'\b\w+\b', text)`: the maximal runs of word characters,
in order (`cur` is the current run in reverse). -/
def findWordsAux : List Char → List Char → List (List Char)
  | [], cur => if cur = [] then [] else [cur.reverse]
  | c :: rest, cur =>
    if wordChar c then findWordsAux rest (c :: cur)
    else if cur = [] then findWordsAux rest []
    else cur.reverse :: findWordsAux rest []

/-- Count the occurrences of `w` in `ws`. -/
def countOcc (ws : List String) (w : String) : Nat :=
  ws.countP fun x => x = w

/-- The distinct elements of `ws` in first-occurrence order (the key
order of the Python `word_freq` dict). -/
def firstOccurrences (ws : List String) : List String :=
  ws.foldl (fun acc w => if w ∈ acc then acc else acc ++ [w]) []

/-- `KnowledgeBasePreprocessor.extract_keywords(text, top_n=5)`:
frequency analysis over lowercased words of length above 3 that are not
stopwords; `sorted(..., reverse=True)` is a stable descending sort, so
ties keep the dict's first-occurrence order. -/
def extract_keywords (text : String) (topN : Nat := 5) : List String :=
  let words := (findWordsAux (pyLower text).data []).map String.mk
  let words := words.filter fun w => w ∉ kbStopwords ∧ w.length > 3
  let uniq := firstOccurrences words
  let sorted := uniq.insertionSort fun a b => countOcc words b ≤ countOcc words a
  sorted.take topN

/-- Python `str.title()` for the ASCII file stems: uppercase every
letter that follows a non-letter, lowercase the rest. -/
def pyTitleAux : List Char → Bool → List Char
  | [], _ => []
  | c :: t, prevAlpha =>
    let isAlpha := (('a') ≤ c && c ≤ ('z')) || (('A') ≤ c && c ≤ ('Z'))
    if isAlpha then
      (if prevAlpha then pyLowerC c else pyUpperC c) :: pyTitleAux t true
    else c :: pyTitleAux t false

/-- Drop the numbering prefix `re.sub(r'^\d+_', '', stem)`: one or more
leading digits followed by an underscore. -/
def dropNumberPrefix (cs : List Char) : List Char :=
  let digits := cs.takeWhile fun c => ('0') ≤ c && c ≤ ('9')
  let rest := cs.drop digits.length
  if digits ≠ [] ∧ rest.head? = some ('_') then rest.drop 1 else cs

/-- Title derivation from a file stem in `process_txt_file`: drop the
numbering prefix, replace underscores by spaces, title-case. -/
def mkTitle (stem : String) : String :=
  String.mk (pyTitleAux
    (pyReplaceL (dropNumberPrefix stem.data) [('_')] [(' ')]) false)

/-- `f"doc_{n:04d}"`: the document id assigned to the `n`-th document. -/
def mkDocId (n : Nat) : String :=
  String.mk ((("doc_").data) ++
    (List.replicate (4 - (natDecimal n).length) ('0') ++ natDecimal n))

/-- Chunk-level metadata persisted with each document. -/
structure KBMeta where
  source_file : String
  chunk_index : Nat
  total_chunks : Nat
  word_count : Nat
  char_count : Nat
deriving DecidableEq

/-- A persisted knowledge-base document record. -/
structure KBDocument where
  id : String
  category : String
  title : String
  language : String
  content : String
  keywords : List String
  metadata : KBMeta
deriving DecidableEq

/-- Build the document record appended for chunk `chunk` (enumeration
index `i`) when the accumulated document list has length `n - 1`
(so the new record is the `n`-th document overall). -/
def mkKBDocument (category language fileName : String) (title : String)
    (totalChunks : Nat) (n i : Nat) (chunk : String) : KBDocument :=
  { id := mkDocId n
    category := category
    title := if totalChunks > 1
      then title ++ (" - Part ") ++ String.mk (natDecimal (i + 1))
      else title
    language := language
    content := chunk
    keywords := extract_keywords chunk
    metadata :=
      { source_file := fileName
        chunk_index := i
        total_chunks := totalChunks
        word_count := (pySplit chunk).length
        char_count := chunk.length } }

/-- The per-chunk accumulation loop of `process_txt_file`: chunks
shorter than 100 characters are skipped (logged safeguard); every other
chunk is appended as a document whose id counts all documents so far. -/
def processChunksFold (category language fileName title : String)
    (totalChunks : Nat) (docs : List KBDocument)
    (l : List (Nat × String)) : List KBDocument :=
  l.foldl (fun acc p =>
    if p.2.length < 100 then acc
    else acc ++ [mkKBDocument category language fileName title totalChunks
      (acc.length + 1) p.1 p.2]) docs

/-- `KnowledgeBasePreprocessor.process_txt_file`, given the already
accumulated documents (`self.documents`) and the file's raw text
(the file read and logging are I/O; a file whose content is blank is
skipped). -/
def process_txt_file (docs : List KBDocument) (rawContent : String)
    (category language fileName fileStem : String) : List KBDocument :=
  if pyStrip rawContent = ("") then docs
  else
    let content := clean_text rawContent
    let chunks := chunk_text content 600 50 100
    let title := mkTitle fileStem
    processChunksFold category language fileName title chunks.length docs
      chunks.enum

/-- The documents `processChunksFold` appends beyond its input list,
computed directly: `mk` builds the record from (overall document number,
chunk index, chunk), and `n` is the number of documents accumulated so
far.  `processChunksFold` equals its input followed by these documents
(`processChunksFold_eq` below). -/
def newChunkDocs (mk : Nat → Nat → String → KBDocument) :
    List (Nat × String) → Nat → List KBDocument
  | [], _ => []
  | p :: t, n =>
    if p.2.length < 100 then newChunkDocs mk t n
    else mk (n + 1) p.1 p.2 :: newChunkDocs mk t (n + 1)

/-! ### EmbeddingService (src/embedding_service.py)

The ChromaDB collection is an external collaborator: a `search` call is
modelled by the reply the database produced for
`collection.query(query_texts=[query], n_results=top_k, where=...)`
— parallel arrays of ids, contents, distances and metadatas — or by the
exception the database client raised.  The embedding model itself only
influences which reply the database returns. -/

/-- `config.RAG_TOP_K`. -/
def RAG_TOP_K : Nat := 3

/-- `config.RAG_SCORE_THRESHOLD` (`0.12`, as an exact rational). -/
def RAG_SCORE_THRESHOLD : ℚ := 12 / 100

/-- The metadata stored with each vector-database entry (the fields
`EmbeddingService.load_knowledge_base` writes and the formatting code
reads). -/
structure ChromaMeta where
  title : String
  category : String
  language : String
  keywords : String
  word_count : String
  source_file : String
deriving DecidableEq, Inhabited

/-- One query reply from the ChromaDB collection: the inner parallel
arrays `results['ids'][0]`, `results['documents'][0]`,
`results['distances'][0]`, `results['metadatas'][0]`. -/
structure QueryReply where
  ids : List String
  documents : List String
  distances : List ℚ
  metadatas : List ChromaMeta
deriving DecidableEq

/-- A formatted search result (the dict built by
`EmbeddingService.search`). -/
structure RetrievedDoc where
  id : String
  content : String
  score : ℚ
  distance : ℚ
  metadata : ChromaMeta
deriving DecidableEq

/-- The result-formatting loop of `EmbeddingService.search`: for each
returned index, the distance is converted to `score = 1 / (1 + distance)`
and the document is kept exactly when the score reaches
`config.RAG_SCORE_THRESHOLD`. -/
def formatResults (reply : QueryReply) (threshold : ℚ) :
    List RetrievedDoc :=
  (List.range reply.ids.length).filterMap fun i =>
    let distance := reply.distances.getD i 0
    let similarity := 1 / (1 + distance)
    if threshold ≤ similarity then
      some
        { id := reply.ids.getD i ("")
          content := reply.documents.getD i ("")
          score := similarity
          distance := distance
          metadata := reply.metadatas.getD i default }
    else none

/-- `EmbeddingService.search` given the database's reply.  `top_k` and
the `language`/`category` equality filters only shape the query sent to
the database (the reply holds at most `top_k` entries, matching the
filters, in ascending distance order — hypotheses of the theorems
below). -/
def EmbeddingService.search (reply : QueryReply) : List RetrievedDoc :=
  formatResults reply RAG_SCORE_THRESHOLD

/-- `EmbeddingService.search` including the database interaction: the
method has no exception handler, so a raising `collection.query` call
propagates to the caller. -/
def EmbeddingService.searchExc (dbReply : Except String QueryReply) :
    Except String (List RetrievedDoc) :=
  match dbReply with
  | Except.error e => Except.error e
  | Except.ok reply => Except.ok (EmbeddingService.search reply)

/-- Non-raising outcomes of `EmbeddingService.load_knowledge_base`. -/
inductive LoadOutcome where
  | alreadyLoaded
  | missingFile
  | loaded
deriving DecidableEq

/-- `EmbeddingService.load_knowledge_base(force_reload)` given the
result of the initial `collection.count()` call (`Except.error` when the
vector database is unreachable and the call raises — the method has no
handler) and whether `config.KNOWLEDGE_BASE_FILE` exists.  A missing
file is logged and the method returns normally with nothing loaded. -/
def EmbeddingService.load_knowledge_base
    (countResult : Except String Nat) (forceReload : Bool)
    (fileExists : Bool) : Except String LoadOutcome :=
  match countResult with
  | Except.error e => Except.error e
  | Except.ok existingCount =>
    if existingCount > 0 ∧ ¬forceReload then Except.ok LoadOutcome.alreadyLoaded
    else if ¬fileExists then Except.ok LoadOutcome.missingFile
    else Except.ok LoadOutcome.loaded

/-! ### LLMService (src/llm_service.py)

The Ollama HTTP endpoint is an external collaborator; a `generate` call
is modelled by the outcome of the `requests.post` call. -/

/-- Outcome of the HTTP completion request: a response with its status
code and (for status 200) the stripped-relevant `response` field, a
timeout, or another raised exception. -/
inductive LLMOutcome where
  | response (status : Nat) (text : String)
  | timeout
  | failure (msg : String)
deriving DecidableEq

/-- `LLMService.generate`: status 200 yields the response text,
stripped; a non-200 status, a timeout or any other exception is logged
and yields the empty string. -/
def LLMService.generate (o : LLMOutcome) : String :=
  match o with
  | LLMOutcome.response 200 text => pyStrip text
  | LLMOutcome.response _ _ => ("")
  | LLMOutcome.timeout => ("")
  | LLMOutcome.failure _ => ("")

/-- `LLMService._postprocess_answer`: strip, drop known leading
boilerplate prefixes (language-dependent, re-stripping after each), force
a leading capital, ensure terminal punctuation. -/
def LLMService.postprocess_answer (answer : String) (language : String) :
    String :=
  let answer := pyStrip answer
  let prefixes : List String :=
    if language = ("id") then [("Jawaban:"), ("Jawab:"), ("Berdasarkan konteks,")]
    else [("Answer:"), ("Based on the context,")]
  let answer := prefixes.foldl
    (fun a p =>
      if pyStartsWith a p then pyStrip (String.mk (a.data.drop p.data.length))
      else a)
    answer
  let answer :=
    match answer.data with
    | [] => answer
    | c :: rest => if ¬ pyIsUpperC c then String.mk (pyUpperC c :: rest) else answer
  match answer.data.getLast? with
  | none => answer
  | some c =>
    if c ≠ ('.') ∧ c ≠ ('!') ∧ c ≠ ('?') then answer ++ (".") else answer

/-- `LLMService.generate_answer`: the prompt built from the retrieved
context only shapes the request; the returned answer is the generation
outcome post-processed. -/
def LLMService.generate_answer (o : LLMOutcome) (language : String) :
    String :=
  LLMService.postprocess_answer (LLMService.generate o) language

/-! ### RAGService (src/rag_service.py)

`answer_question` is modelled as a function of the collaborator
outcomes: the retrieval result (or the exception the embedding service /
vector database raised) and the generation result (or the exception the
LLM service raised).  All exceptions surface inside the method's single
`try`/`except` and are converted there; an extra pair of booleans records
whether retrieval and generation were actually invoked. -/

/-- One source entry of `RAGService._format_sources`. -/
structure SourceEntry where
  title : String
  category : String
  score : ℚ
  excerpt : String
deriving DecidableEq

/-- The response dict of `RAGService.answer_question`; `sources` is
`none` when the key is absent (success with `return_sources=False`),
`error` is `none` when the key is absent.  Timing values are wall-clock
durations and are outside the embedding. -/
structure RAGResponse where
  answer : String
  sources : Option (List SourceEntry)
  language : String
  success : Bool
  error : Option String
deriving DecidableEq

deriving instance DecidableEq for Except

/-- The collaborator outcomes a single `answer_question` call observes. -/
structure RAGEnv where
  searchResult : Except String (List RetrievedDoc)
  genResult : Except String String
deriving DecidableEq

/-- `answer_question`'s response together with which collaborators the
call invoked. -/
structure RAGOutcome where
  response : RAGResponse
  calledSearch : Bool
  calledGen : Bool
deriving DecidableEq

/-- Python `language or 'id'` for the optional caller language. -/
def pyOrIdOpt (language : Option String) : String :=
  match language with
  | none => ("id")
  | some l => if l = ("") then ("id") else l

/-- Python `language or 'id'` once `language` holds a string. -/
def pyOrIdStr (language : String) : String :=
  if language = ("") then ("id") else language

/-- The Indonesian keyword list of `RAGService._detect_language`. -/
def idKeywords : List String :=
  [("apa"), ("yang"), ("adalah"), ("ini"), ("itu"), ("dengan"),
   ("dari"), ("ke"), ("di"), ("untuk")]

/-- The English keyword list of `RAGService._detect_language`. -/
def enKeywords : List String :=
  [("what"), ("is"), ("the"), ("this"), ("that"), ("with"), ("from"),
   ("to"), ("in"), ("for")]

/-- `RAGService._detect_language`: count keyword substring hits in the
lowercased text; Indonesian wins ties. -/
def detect_language (text : String) : String :=
  let tl := pyLower text
  let idScore := idKeywords.countP fun kw => pyContainsL tl.data kw.data
  let enScore := enKeywords.countP fun kw => pyContainsL tl.data kw.data
  if idScore ≥ enScore then ("id") else ("en")

/-- `RAGService._get_error_message`. -/
def get_error_message (language : String) : String :=
  if language = ("id") then
    ("Maaf, terjadi kesalahan saat memproses pertanyaan Anda. Silakan coba lagi.")
  else
    ("I'm sorry, there was an error processing your question. Please try again.")

/-- `RAGService._error_response`. -/
def error_response (errorMsg language : String) : RAGResponse :=
  { answer := get_error_message language
    sources := some []
    language := language
    success := false
    error := some errorMsg }

/-- The fixed answer text of `RAGService._no_info_response`. -/
def no_info_answer (language : String) : String :=
  if language = ("id") then
    ("Maaf, saya tidak menemukan informasi yang relevan untuk menjawab pertanyaan Anda di basis pengetahuan saya tentang Reog Ponorogo.")
  else
    ("I'm sorry, I couldn't find relevant information to answer your question in my knowledge base about Reog Ponorogo.")

/-- `RAGService._no_info_response` (its `question` argument is unused in
the source as well). -/
def no_info_response (question language : String) : RAGResponse :=
  { answer := no_info_answer language
    sources := some []
    language := language
    success := false
    error := none }

/-- Python `round(x, 3)` on the similarity score.  (The source rounds a
float; on the rationals of the embedding we round half away from zero to
three decimals — no theorem below depends on the rounding rule.) -/
def pyRound3 (q : ℚ) : ℚ :=
  (round (q * 1000) : ℤ) / 1000

/-- `RAGService._format_sources`: title, category, rounded score and a
150-character excerpt per retrieved document. -/
def format_sources (docs : List RetrievedDoc) : List SourceEntry :=
  docs.map fun doc =>
    { title := doc.metadata.title
      category := doc.metadata.category
      score := pyRound3 doc.score
      excerpt :=
        if doc.content.length > 150 then
          String.mk (doc.content.data.take 150) ++ ("...")
        else doc.content }

/-- `RAGService.answer_question(question, language, top_k,
return_sources, return_timing)`.  The body mirrors the source: validate,
resolve the language, retrieve, branch on empty retrieval, generate,
branch on empty generation, format; the surrounding `try`/`except` turns
either collaborator exception into the localized error response with the
exception text in the `error` field. -/
def RAGService.answer_question (env : RAGEnv) (question : String)
    (language : Option String) (returnSources : Bool := true) :
    RAGOutcome :=
  if question = ("") ∨ pyStrip question = ("") then
    { response := error_response ("Empty question") (pyOrIdOpt language)
      calledSearch := false
      calledGen := false }
  else
    let q := pyStrip question
    let lang :=
      match language with
      | none => detect_language q
      | some l => l
    match env.searchResult with
    | Except.error e =>
      { response :=
          { answer := get_error_message (pyOrIdStr lang)
            sources := some []
            language := pyOrIdStr lang
            success := false
            error := some e }
        calledSearch := true
        calledGen := false }
    | Except.ok documents =>
      if documents = [] then
        { response := no_info_response q lang
          calledSearch := true
          calledGen := false }
      else
        match env.genResult with
        | Except.error e =>
          { response :=
              { answer := get_error_message (pyOrIdStr lang)
                sources := some []
                language := pyOrIdStr lang
                success := false
                error := some e }
            calledSearch := true
            calledGen := true }
        | Except.ok answer =>
          if answer = ("") then
            { response := error_response ("Answer generation failed") lang
              calledSearch := true
              calledGen := true }
          else
            { response :=
                { answer := answer
                  sources :=
                    if returnSources then some (format_sources documents)
                    else none
                  language := lang
                  success := true
                  error := none }
              calledSearch := true
              calledGen := true }

/-- A concrete retrieved document used by the C10 witness. -/
def sampleRetrievedDoc : RetrievedDoc :=
  { id := ("doc_0001")
    content := ("Reog adalah kesenian.")
    score := 1 / 2
    distance := 1
    metadata :=
      { title := ("T")
        category := ("sejarah")
        language := ("id")
        keywords := ("reog")
        word_count := ("3")
        source_file := ("f.txt") } }

/-- A concrete two-entry database reply used by the C1 witness
(ascending distances 0 and 2, scores 1 and 1/3, both above the 0.12
threshold). -/
def sampleQueryReply : QueryReply :=
  { ids := [("doc_0001"), ("doc_0002")]
    documents := [("x"), ("y")]
    distances := [0, 2]
    metadatas := [default, default] }

/-! ### Helper lemmas -/

/-- Both localized error messages are non-empty. -/
lemma get_error_message_ne_empty (language : String) :
    get_error_message language ≠ ("") := by
  unfold get_error_message
  split
  · decide
  · decide

/-- Both localized "no information" messages are non-empty. -/
lemma no_info_answer_ne_empty (language : String) :
    no_info_answer language ≠ ("") := by
  unfold no_info_answer
  split
  · decide
  · decide

/-- Post-processing the empty string yields the empty string for every
language. -/
lemma postprocess_answer_empty (language : String) :
    LLMService.postprocess_answer ("") language = ("") := by
  unfold LLMService.postprocess_answer
  by_cases h : language = ("id")
  · rw [if_pos h]
    decide
  · rw [if_neg h]
    decide

/-! ### Claims about the RAG orchestrator -/

/-- C4: for every empty or whitespace-only question, `answer_question`
returns `success = False` with a non-empty answer, without invoking
retrieval or generation, and when the caller supplied no language the
response language is the default `'id'`. -/
theorem rag_empty_question_rejected (env : RAGEnv) (question : String)
    (language : Option String) (returnSources : Bool)
    (hq : pyStrip question = ("")) :
    (RAGService.answer_question env question language returnSources).response.success = false ∧
    (RAGService.answer_question env question language returnSources).response.answer ≠ ("") ∧
    (RAGService.answer_question env question language returnSources).calledSearch = false ∧
    (RAGService.answer_question env question language returnSources).calledGen = false ∧
    (language = none →
      (RAGService.answer_question env question language returnSources).response.language = ("id")) := by
  unfold RAGService.answer_question
  rw [if_pos (Or.inr hq)]
  refine ⟨rfl, get_error_message_ne_empty _, rfl, rfl, ?_⟩
  intro h
  rw [h]
  rfl

/-- C4 witness: the concrete whitespace-only question `"   "` with no
caller language. -/
theorem rag_empty_question_rejected_witness :
    (RAGService.answer_question
        { searchResult := Except.ok [], genResult := Except.ok ("x") }
        ("   ") none true).response.success = false ∧
    (RAGService.answer_question
        { searchResult := Except.ok [], genResult := Except.ok ("x") }
        ("   ") none true).response.language = ("id") := by
  have h := rag_empty_question_rejected
    { searchResult := Except.ok [], genResult := Except.ok ("x") }
    ("   ") none true (by decide)
  exact ⟨h.1, h.2.2.2.2 rfl⟩

/-- C3: when retrieval succeeds with zero documents on a well-formed
question, `answer_question` returns exactly the fixed "no information"
response for the resolved language with `success = False`, and the
generation collaborator is not invoked. -/
theorem rag_no_results_fixed_message (env : RAGEnv) (question : String)
    (language : Option String) (returnSources : Bool)
    (hq : pyStrip question ≠ (""))
    (hs : env.searchResult = Except.ok []) :
    RAGService.answer_question env question language returnSources =
      { response := no_info_response (pyStrip question)
          (match language with
           | none => detect_language (pyStrip question)
           | some l => l)
        calledSearch := true
        calledGen := false } := by
  have hq0 : ¬(question = ("") ∨ pyStrip question = ("")) := by
    rintro (rfl | h)
    · exact hq rfl
    · exact hq h
  unfold RAGService.answer_question
  rw [if_neg hq0, hs]
  rfl

/-- C3 witness: a concrete Indonesian question with an empty retrieval
result; the response is the fixed Indonesian "no information" message,
generation is skipped. -/
theorem rag_no_results_fixed_message_witness :
    RAGService.answer_question
        { searchResult := Except.ok [], genResult := Except.ok ("x") }
        ("Apa itu Reog?") none true =
      { response := no_info_response ("Apa itu Reog?") ("id")
        calledSearch := true
        calledGen := false } := by
  have h := rag_no_results_fixed_message
    { searchResult := Except.ok [], genResult := Except.ok ("x") }
    ("Apa itu Reog?") none true (by decide) rfl
  rw [h]
  decide

/-- C2: whenever `answer_question` returns `success = False`, the answer
is the fixed localized error message or the fixed localized "no
information" message for the response's own language — in particular it
is non-empty, and raw exception text (carried in the `error` field)
never appears as the answer. -/
theorem rag_failure_answer_localized (env : RAGEnv) (question : String)
    (language : Option String) (returnSources : Bool)
    (hfail : (RAGService.answer_question env question language returnSources).response.success = false) :
    (RAGService.answer_question env question language returnSources).response.answer ≠ ("") ∧
    ((RAGService.answer_question env question language returnSources).response.answer =
        get_error_message
          (RAGService.answer_question env question language returnSources).response.language ∨
      (RAGService.answer_question env question language returnSources).response.answer =
        no_info_answer
          (RAGService.answer_question env question language returnSources).response.language) := by
  by_cases hq : question = ("") ∨ pyStrip question = ("")
  · unfold RAGService.answer_question
    rw [if_pos hq]
    exact ⟨get_error_message_ne_empty _, Or.inl rfl⟩
  · rcases hsr : env.searchResult with e | docs
    · unfold RAGService.answer_question
      rw [if_neg hq]
      dsimp only
      rw [hsr]
      exact ⟨get_error_message_ne_empty _, Or.inl rfl⟩
    · by_cases hd : docs = []
      · unfold RAGService.answer_question
        rw [if_neg hq]
        dsimp only
        rw [hsr]
        dsimp only
        rw [if_pos hd]
        exact ⟨no_info_answer_ne_empty _, Or.inr rfl⟩
      · rcases hgr : env.genResult with e | ans
        · unfold RAGService.answer_question
          rw [if_neg hq]
          dsimp only
          rw [hsr]
          dsimp only
          rw [if_neg hd, hgr]
          exact ⟨get_error_message_ne_empty _, Or.inl rfl⟩
        · by_cases ha : ans = ("")
          · unfold RAGService.answer_question
            rw [if_neg hq]
            dsimp only
            rw [hsr]
            dsimp only
            rw [if_neg hd, hgr]
            dsimp only
            rw [if_pos ha]
            exact ⟨get_error_message_ne_empty _, Or.inl rfl⟩
          · -- the remaining branch sets `success := true`,
            -- contradicting the failure hypothesis
            exfalso
            unfold RAGService.answer_question at hfail
            rw [if_neg hq] at hfail
            dsimp only at hfail
            rw [hsr] at hfail
            dsimp only at hfail
            rw [if_neg hd, hgr] at hfail
            dsimp only at hfail
            rw [if_neg ha] at hfail
            dsimp only at hfail
            exact absurd hfail (by decide)

/-- C2 witness: a database exception with a pinned English language; the
response fails with the fixed English error message. -/
theorem rag_failure_answer_localized_witness :
    (RAGService.answer_question
        { searchResult := Except.error ("connection refused"),
          genResult := Except.ok ("x") }
        ("What is Reog?") (some ("en")) true).response.answer ≠ ("") ∧
    ((RAGService.answer_question
        { searchResult := Except.error ("connection refused"),
          genResult := Except.ok ("x") }
        ("What is Reog?") (some ("en")) true).response.answer =
      get_error_message ("en") ∨
     (RAGService.answer_question
        { searchResult := Except.error ("connection refused"),
          genResult := Except.ok ("x") }
        ("What is Reog?") (some ("en")) true).response.answer =
      no_info_answer ("en")) := by
  have h := rag_failure_answer_localized
    { searchResult := Except.error ("connection refused"),
      genResult := Except.ok ("x") }
    ("What is Reog?") (some ("en")) true (by decide)
  exact h

/-! ### Claims about error propagation and the LLM service -/

/-- C9 counterexample: an unreachable vector database makes
`EmbeddingService.search` raise to its caller (the method has no
exception handler), instead of returning zero documents. -/
theorem search_propagates_db_error :
    EmbeddingService.searchExc (Except.error ("connection refused")) =
      Except.error ("connection refused") ∧
    EmbeddingService.searchExc (Except.error ("connection refused")) ≠
      Except.ok [] := by
  exact ⟨rfl, by decide⟩

/-- C9 (amended): a missing knowledge-base file during load is a logged,
non-fatal condition that loads nothing and does not raise; but a raising
vector-database call propagates out of both `load_knowledge_base` and
`search` (the exception is only caught at `RAGService.answer_question`'s
boundary). -/
theorem embedding_missing_file_safe_db_error_raises :
    (∀ e, EmbeddingService.searchExc (Except.error e) = Except.error e) ∧
    (∀ e forceReload fileExists,
      EmbeddingService.load_knowledge_base (Except.error e) forceReload
        fileExists = Except.error e) ∧
    (∀ forceReload,
      EmbeddingService.load_knowledge_base (Except.ok 0) forceReload false =
        Except.ok LoadOutcome.missingFile) := by
  refine ⟨fun e => rfl, fun e fr fe => rfl, fun fr => ?_⟩
  cases fr
  · decide
  · decide

/-- C10: a failed completion call can never surface as a non-empty
answer: post-processing the empty string is the empty string in every
language, `generate` returns the empty string on timeout, exception or
non-200 status (so `generate_answer` does too), and the orchestrator
turns that empty answer into a failure response carrying
`"Answer generation failed"`. -/
theorem llm_failure_stays_empty
    (o : LLMOutcome) (language : String) (env : RAGEnv)
    (question : String) (callerLanguage : Option String)
    (returnSources : Bool) (docs : List RetrievedDoc)
    (ho : ∀ text, o ≠ LLMOutcome.response 200 text)
    (hq : pyStrip question ≠ (""))
    (hs : env.searchResult = Except.ok docs)
    (hd : docs ≠ [])
    (hg : env.genResult = Except.ok ("")) :
    LLMService.postprocess_answer ("") language = ("") ∧
    LLMService.generate o = ("") ∧
    LLMService.generate_answer o language = ("") ∧
    (RAGService.answer_question env question callerLanguage
        returnSources).response.success = false ∧
    (RAGService.answer_question env question callerLanguage
        returnSources).response.error =
      some ("Answer generation failed") := by
  have hgen : LLMService.generate o = ("") := by
    unfold LLMService.generate
    split
    · rename_i text
      exact absurd rfl (ho text)
    · rfl
    · rfl
    · rfl
  have hq0 : ¬(question = ("") ∨ pyStrip question = ("")) := by
    rintro (rfl | h)
    · exact hq rfl
    · exact hq h
  have hrag : (RAGService.answer_question env question callerLanguage
      returnSources).response.success = false ∧
      (RAGService.answer_question env question callerLanguage
        returnSources).response.error =
        some ("Answer generation failed") := by
    unfold RAGService.answer_question
    rw [if_neg hq0]
    dsimp only
    rw [hs]
    dsimp only
    rw [if_neg hd, hg]
    dsimp only
    rw [if_pos rfl]
    exact ⟨rfl, rfl⟩
  refine ⟨postprocess_answer_empty language, hgen, ?_, hrag.1, hrag.2⟩
  unfold LLMService.generate_answer
  rw [hgen]
  exact postprocess_answer_empty language

/-- C10 witness: a timeout outcome with a concrete pipeline state. -/
theorem llm_failure_stays_empty_witness :
    LLMService.generate LLMOutcome.timeout = ("") ∧
    LLMService.generate_answer LLMOutcome.timeout ("id") = ("") ∧
    (RAGService.answer_question
        { searchResult := Except.ok [sampleRetrievedDoc],
          genResult := Except.ok ("") }
        ("Apa itu Reog?") (some ("id")) true).response.success = false := by
  have h := llm_failure_stays_empty LLMOutcome.timeout ("id")
    { searchResult := Except.ok [sampleRetrievedDoc],
      genResult := Except.ok ("") }
    ("Apa itu Reog?") (some ("id")) true [sampleRetrievedDoc]
    (fun text hcontra => by cases hcontra) (by decide) rfl (by decide) rfl
  exact ⟨h.2.1, h.2.2.1, h.2.2.2.1⟩

/-! ### Claims about the chunker -/

/-- The trailing-buffer merge of `chunkFinish`, in isolation: a
non-empty stripped buffer shorter than `minSize` with at least one
existing chunk is appended to the last chunk instead of being emitted. -/
lemma chunkFinish_merges_short_tail (text : String) (minSize : Nat)
    (st : ChunkState)
    (h1 : pyStrip st.current ≠ (""))
    (h2 : (pyStrip st.current).length < minSize)
    (h3 : st.chunks ≠ []) :
    chunkFinish text minSize st =
      (st.chunks.dropLast ++
        [(st.chunks.getLast?.getD ("")) ++ (" ") ++ pyStrip st.current]).filter
        (fun c => c ≠ ("")) := by
  unfold chunkFinish
  dsimp only
  have h23 : (pyStrip st.current).length < minSize ∧ st.chunks ≠ [] := ⟨h2, h3⟩
  have hne : (st.chunks.dropLast ++
      [(st.chunks.getLast?.getD ("")) ++ (" ") ++ pyStrip st.current]) ≠
      ([] : List String) := by simp
  rw [if_pos h1, if_pos h23, if_neg hne]

/-- C5 counterexample: with `max_size = 10`, `overlap = 5`,
`min_size = 5`, the text `"Hi. Aaaaaaaaaaaa."` produces the two chunks
`["Hi.", "Aaaaaaaaaaaa."]`: the chunk `"Hi."` has length `3 < min_size`
and is not the only chunk produced — the claimed bound fails for chunks
flushed by an oversized sentence mid-stream. -/
theorem chunk_text_short_chunk_possible :
    chunk_text ("Hi. Aaaaaaaaaaaa.") 10 5 5 = [("Hi."), ("Aaaaaaaaaaaa.")] ∧
    (("Hi.") ∈ chunk_text ("Hi. Aaaaaaaaaaaa.") 10 5 5 ∧
      ("Hi.").length < 5 ∧ (chunk_text ("Hi. Aaaaaaaaaaaa.") 10 5 5).length ≠ 1) := by
  decide

/-- C5 (amended): the trailing-buffer merge safeguard does hold — for
every input and parameters, when the sentence loop ends with a non-empty
stripped buffer shorter than `min_size` and at least one chunk already
exists, `chunk_text` merges the buffer into the previous chunk (even
beyond `max_size`) instead of emitting it standalone; chunks shorter
than `min_size` can still be flushed mid-stream. -/
theorem chunk_text_short_tail_merged (text : String)
    (maxSize overlap minSize : Nat)
    (h1 : pyStrip (chunkLoopState text maxSize overlap).current ≠ (""))
    (h2 : (pyStrip (chunkLoopState text maxSize overlap).current).length < minSize)
    (h3 : (chunkLoopState text maxSize overlap).chunks ≠ []) :
    chunk_text text maxSize overlap minSize =
      ((chunkLoopState text maxSize overlap).chunks.dropLast ++
        [((chunkLoopState text maxSize overlap).chunks.getLast?.getD ("")) ++
          (" ") ++ pyStrip (chunkLoopState text maxSize overlap).current]).filter
        (fun c => c ≠ ("")) := by
  unfold chunk_text
  exact chunkFinish_merges_short_tail text minSize
    (chunkLoopState text maxSize overlap) h1 h2 h3

/-- C5 witness: for `"Aaaa bbbb cccc dddd. Ee."` with `max_size = 20`,
`min_size = 10`, the loop ends with the too-short buffer `"Ee."` after
the oversized first sentence was flushed; the buffer is merged into that
chunk, giving the single chunk `"Aaaa bbbb cccc dddd. Ee."`. -/
theorem chunk_text_short_tail_merged_witness :
    pyStrip (chunkLoopState ("Aaaa bbbb cccc dddd. Ee.") 20 5).current ≠ ("") ∧
    chunk_text ("Aaaa bbbb cccc dddd. Ee.") 20 5 10 =
      ((chunkLoopState ("Aaaa bbbb cccc dddd. Ee.") 20 5).chunks.dropLast ++
        [((chunkLoopState ("Aaaa bbbb cccc dddd. Ee.") 20 5).chunks.getLast?.getD
            ("")) ++ (" ") ++
          pyStrip (chunkLoopState ("Aaaa bbbb cccc dddd. Ee.") 20 5).current]).filter
        (fun c => c ≠ ("")) := by
  exact ⟨by decide,
    chunk_text_short_tail_merged ("Aaaa bbbb cccc dddd. Ee.") 20 5 10
      (by decide) (by decide) (by decide)⟩

/-- C6 counterexample: with `max_size = 10` and `overlap = 50`, the text
`"Aaaa bbb. CCC…C. Dddd eee."` (29 `C`s) yields three chunks whose
middle chunk has 30 characters — strictly more than `max_size` plus the
overlap budget of its preceding chunk — even though it is not the last
chunk: oversized single sentences break the claimed bound at non-final
positions. -/
theorem chunk_text_oversized_mid_chunk :
    (chunk_text (("Aaaa bbb. ") ++ String.mk (List.replicate 29 ('C')) ++
        (". Dddd eee.")) 10 50 2).length = 3 ∧
    ((chunk_text (("Aaaa bbb. ") ++ String.mk (List.replicate 29 ('C')) ++
        (". Dddd eee.")) 10 50 2).getD 1 ("")).length >
      10 + specOverlapBudget
        ((chunk_text (("Aaaa bbb. ") ++ String.mk (List.replicate 29 ('C')) ++
          (". Dddd eee.")) 10 50 2).getD 0 ("")) 50 := by
  decide

/-- C6 (amended): every chunk returned by `chunk_text` is a non-empty
string, for every input text and parameters; the size bound
`max_size + overlap budget` does not hold in general because a sentence
longer than `max_size` is emitted whole as its own oversized chunk, at
any position. -/
theorem chunk_text_chunks_nonempty (text : String)
    (maxSize overlap minSize : Nat) (c : String)
    (hc : c ∈ chunk_text text maxSize overlap minSize) : c ≠ ("") := by
  unfold chunk_text chunkFinish at hc
  exact of_decide_eq_true (List.mem_filter.1 hc).2

/-- C6 witness: the single chunk of a short text is non-empty. -/
theorem chunk_text_chunks_nonempty_witness :
    ("Hello there.") ∈ chunk_text ("Hello there.") 600 50 100 ∧
    ("Hello there.") ≠ ("") := by
  exact ⟨by decide,
    chunk_text_chunks_nonempty ("Hello there.") 600 50 100 ("Hello there.")
      (by decide)⟩

/-! ### Claims about the text normalizer -/

/-- C7 counterexample: `"Raja Klono Sewandono"` is itself a canonical
domain term, yet `normalize` is not idempotent on it:
`normalize` maps it to `"raja Raja Klono Sewandono"` (the dictionary key
`"klono sewandono"` rewrites inside the lowercased term, duplicating the
honorific), and a second pass prepends yet another `"raja "`. -/
theorem normalize_not_idempotent_on_canonical_term :
    ("Raja Klono Sewandono") ∈ important_terms ∧
    TextNormalizer.normalize
        (TextNormalizer.normalize ("Raja Klono Sewandono")) ≠
      TextNormalizer.normalize ("Raja Klono Sewandono") := by
  decide

/-- C7 (amended): `normalize` is idempotent on every canonical domain
term except the six of `nonIdempotentTerms`, whose normalization
prepends a duplicate leading word on every pass. -/
theorem normalize_idempotent_on_stable_terms (t : String)
    (ht : t ∈ important_terms) (hs : t ∉ nonIdempotentTerms) :
    TextNormalizer.normalize (TextNormalizer.normalize t) =
      TextNormalizer.normalize t := by
  fin_cases ht
  all_goals first
  | exact absurd (by decide) hs
  | decide

/-- C7 witness: idempotence at the canonical term `"Warok"`. -/
theorem normalize_idempotent_on_stable_terms_witness :
    TextNormalizer.normalize (TextNormalizer.normalize ("Warok")) =
      TextNormalizer.normalize ("Warok") := by
  exact normalize_idempotent_on_stable_terms ("Warok") (by decide) (by decide)

/-! ### Claims about knowledge-base document invariants -/

/-- `decodeNat` reads back the digits of `natDecimalGo` whenever the
fuel suffices. -/
lemma decodeNat_natDecimalGo :
    ∀ (fuel n : Nat), n ≤ fuel → decodeNat (natDecimalGo fuel n) = n := by
  have hch : ∀ m, m < 10 → (Char.ofNat (48 + m)).toNat = 48 + m := by decide
  intro fuel
  induction fuel with
  | zero =>
    intro n hn
    have hn0 : n = 0 := Nat.le_zero.1 hn
    subst hn0
    decide
  | succ fuel ih =>
    intro n hn
    unfold natDecimalGo
    by_cases h10 : n < 10
    · rw [if_pos h10]
      show 10 * 0 + ((Char.ofNat (48 + n)).toNat - 48) = n
      rw [hch n h10]
      omega
    · rw [if_neg h10]
      have hmod : (Char.ofNat (48 + n % 10)).toNat = 48 + n % 10 :=
        hch _ (Nat.mod_lt n (by omega))
      have hdiv : n / 10 ≤ fuel := by
        have : n / 10 < n := Nat.div_lt_self (by omega) (by omega)
        omega
      calc decodeNat (natDecimalGo fuel (n / 10) ++ [Char.ofNat (48 + n % 10)])
          = 10 * decodeNat (natDecimalGo fuel (n / 10)) +
            ((Char.ofNat (48 + n % 10)).toNat - 48) := by
            simp [decodeNat, List.foldl_append]
        _ = n := by
            rw [ih (n / 10) hdiv, hmod]
            omega

/-- `decodeNat` is a left inverse of `natDecimal`. -/
lemma decodeNat_natDecimal (n : Nat) : decodeNat (natDecimal n) = n :=
  decodeNat_natDecimalGo n n (Nat.le_refl n)

/-- Leading `'0'` padding does not change the decoded value. -/
lemma decodeNat_replicate_zero :
    ∀ (k : Nat) (cs : List Char),
      decodeNat (List.replicate k ('0') ++ cs) = decodeNat cs := by
  intro k
  induction k with
  | zero => intro cs; rfl
  | succ k ih =>
    intro cs
    show decodeNat (('0') :: (List.replicate k ('0') ++ cs)) = decodeNat cs
    have h0 : decodeNat (('0') :: (List.replicate k ('0') ++ cs)) =
        decodeNat (List.replicate k ('0') ++ cs) := by
      simp only [decodeNat, List.foldl_cons]
      congr 1
    rw [h0, ih]

/-- Document ids `doc_0001, doc_0002, …` are pairwise distinct. -/
lemma mkDocId_injective : Function.Injective mkDocId := by
  intro a b h
  have hdata : (("doc_").data) ++
      (List.replicate (4 - (natDecimal a).length) ('0') ++ natDecimal a) =
      (("doc_").data) ++
      (List.replicate (4 - (natDecimal b).length) ('0') ++ natDecimal b) :=
    congrArg String.data h
  have hpad := List.append_cancel_left hdata
  have hdec := congrArg decodeNat hpad
  rwa [decodeNat_replicate_zero, decodeNat_replicate_zero,
    decodeNat_natDecimal, decodeNat_natDecimal] at hdec

/-- `processChunksFold` equals its input followed by the directly
computed new documents. -/
lemma processChunksFold_eq (cat lang fn title : String) (tc : Nat) :
    ∀ (l : List (Nat × String)) (docs : List KBDocument),
      processChunksFold cat lang fn title tc docs l =
        docs ++ newChunkDocs (mkKBDocument cat lang fn title tc) l docs.length := by
  intro l
  induction l with
  | nil => intro docs; simp [processChunksFold, newChunkDocs]
  | cons p t ih =>
    intro docs
    show List.foldl _ _ (p :: t) = _
    rw [List.foldl_cons]
    by_cases hp : p.2.length < 100
    · rw [if_pos hp]
      show processChunksFold cat lang fn title tc docs t = _
      rw [ih docs]
      show _ = docs ++ (if p.2.length < 100 then _ else _)
      rw [if_pos hp]
    · rw [if_neg hp]
      show processChunksFold cat lang fn title tc
        (docs ++ [mkKBDocument cat lang fn title tc (docs.length + 1) p.1 p.2]) t = _
      rw [ih]
      show _ = docs ++ (if p.2.length < 100 then _ else _)
      rw [if_neg hp]
      simp [List.append_assoc]

/-- Every document produced by the chunk loop keeps the 100-character
content guard. -/
lemma newChunkDocs_content (cat lang fn title : String) (tc : Nat) :
    ∀ (l : List (Nat × String)) (n : Nat) (d : KBDocument),
      d ∈ newChunkDocs (mkKBDocument cat lang fn title tc) l n →
      100 ≤ d.content.length := by
  intro l
  induction l with
  | nil => intro n d hd; simp [newChunkDocs] at hd
  | cons p t ih =>
    intro n d hd
    by_cases hp : p.2.length < 100
    · rw [newChunkDocs, if_pos hp] at hd
      exact ih n d hd
    · rw [newChunkDocs, if_neg hp] at hd
      rcases List.mem_cons.1 hd with rfl | hmem
      · exact Nat.le_of_not_lt hp
      · exact ih (n + 1) d hmem

/-- The chunk indices of the produced documents form a sublist of the
enumeration indices. -/
lemma newChunkDocs_chunk_index_sublist (cat lang fn title : String)
    (tc : Nat) :
    ∀ (l : List (Nat × String)) (n : Nat),
      ((newChunkDocs (mkKBDocument cat lang fn title tc) l n).map
        (fun d => d.metadata.chunk_index)).Sublist (l.map Prod.fst) := by
  intro l
  induction l with
  | nil => intro n; simp [newChunkDocs]
  | cons p t ih =>
    intro n
    by_cases hp : p.2.length < 100
    · rw [newChunkDocs, if_pos hp]
      exact (ih n).cons p.1
    · rw [newChunkDocs, if_neg hp]
      simp only [List.map_cons]
      exact (ih (n + 1)).cons₂ p.1

/-- The produced documents' ids continue the `doc_…` numbering from
position `n`. -/
lemma newChunkDocs_id (cat lang fn title : String) (tc : Nat) :
    ∀ (l : List (Nat × String)) (n k : Nat) (d : KBDocument),
      (newChunkDocs (mkKBDocument cat lang fn title tc) l n)[k]? = some d →
      d.id = mkDocId (n + k + 1) := by
  intro l
  induction l with
  | nil => intro n k d hd; simp [newChunkDocs] at hd
  | cons p t ih =>
    intro n k d hd
    by_cases hp : p.2.length < 100
    · rw [newChunkDocs, if_pos hp] at hd
      exact ih n k d hd
    · rw [newChunkDocs, if_neg hp] at hd
      cases k with
      | zero =>
        rw [List.getElem?_cons_zero] at hd
        injection hd with hd
        rw [← hd]
        rfl
      | succ k =>
        rw [List.getElem?_cons_succ] at hd
        rw [ih (n + 1) k d hd]
        congr 1
        omega

/-- A list whose `k`-th element carries id `mkDocId (k+1)` has pairwise
distinct ids. -/
lemma ids_nodup (L : List KBDocument)
    (h : ∀ k d, L[k]? = some d → d.id = mkDocId (k + 1)) :
    (L.map (fun d => d.id)).Nodup := by
  have hEq : L.map (fun d => d.id) =
      (List.range L.length).map (fun k => mkDocId (k + 1)) := by
    apply List.ext_getElem
    · simp
    · intro i h1 h2
      have hi : i < L.length := by simpa using h1
      simp only [List.getElem_map, List.getElem_range]
      exact h i (L.get ⟨i, hi⟩) (by rw [List.getElem?_eq_getElem hi]; rfl)
  rw [hEq]
  exact (List.nodup_range L.length).map
    (fun x y hxy => by
      have := mkDocId_injective hxy
      omega)

/-- C8 counterexample: for a file whose cleaned text chunks into
`["Hi.", <612-char sentence>]`, the 3-character chunk 0 is skipped by
the 100-character guard, so the single persisted document carries
`chunk_index = 1`: the persisted chunk indices are not contiguous
starting at 0. -/
theorem process_txt_file_chunk_index_gap :
    ((process_txt_file [] (("Hi. ") ++ String.mk (List.replicate 611 ('a')) ++
        (".")) ("faq") ("id") ("f.txt") ("01_f")).map
      (fun d => d.metadata.chunk_index)) = [1] ∧
    (process_txt_file [] (("Hi. ") ++ String.mk (List.replicate 611 ('a')) ++
        (".")) ("faq") ("id") ("f.txt") ("01_f")) ≠ [] := by
  decide

/-- The conjunction of invariants for the decomposed document list
`docs ++ newChunkDocs mk l docs.length`, for an arbitrary enumeration
`l` with strictly increasing indices. -/
lemma append_newChunkDocs_invariants
    (docs : List KBDocument) (cat lang fn title : String) (tc : Nat)
    (l : List (Nat × String))
    (hl : (l.map Prod.fst).Pairwise (· < ·))
    (hids : ∀ k d, docs[k]? = some d → d.id = mkDocId (k + 1)) :
    (∀ d ∈ (docs ++ newChunkDocs (mkKBDocument cat lang fn title tc) l
        docs.length).drop docs.length, 100 ≤ d.content.length) ∧
    (((docs ++ newChunkDocs (mkKBDocument cat lang fn title tc) l
        docs.length).drop docs.length).map
      (fun d => d.metadata.chunk_index)).Pairwise (· < ·) ∧
    (∀ k d, (docs ++ newChunkDocs (mkKBDocument cat lang fn title tc) l
        docs.length)[k]? = some d → d.id = mkDocId (k + 1)) ∧
    ((docs ++ newChunkDocs (mkKBDocument cat lang fn title tc) l
        docs.length).map (fun d => d.id)).Nodup := by
  have h3 : ∀ k d, (docs ++ newChunkDocs (mkKBDocument cat lang fn title tc) l
      docs.length)[k]? = some d → d.id = mkDocId (k + 1) := by
    intro k d hd
    by_cases hk : k < docs.length
    · rw [List.getElem?_append_left hk] at hd
      exact hids k d hd
    · rw [List.getElem?_append_right (Nat.le_of_not_lt hk)] at hd
      have hnew := newChunkDocs_id cat lang fn title tc l docs.length
        (k - docs.length) d hd
      have harg : docs.length + (k - docs.length) + 1 = k + 1 := by omega
      rw [hnew, harg]
  refine ⟨?_, ?_, h3, ids_nodup _ h3⟩
  · intro d hd
    rw [List.drop_left] at hd
    exact newChunkDocs_content cat lang fn title tc l docs.length d hd
  · rw [List.drop_left]
    exact List.Pairwise.sublist
      (newChunkDocs_chunk_index_sublist cat lang fn title tc l docs.length) hl

/-- C8 (amended): for every processed file, every newly persisted
document has content of at least `MIN_CHUNK_SIZE = 100` characters and
the new documents' `chunk_index` values are strictly increasing (they
need not be contiguous from 0, since undersized chunks are skipped);
and when the incoming document list numbers its ids `doc_0001, …` by
position, the extended list does too, so ids stay unique and
monotonically assigned across the whole knowledge base. -/
theorem process_txt_file_invariants
    (docs : List KBDocument)
    (rawContent category language fileName fileStem : String)
    (hids : ∀ k d, docs[k]? = some d → d.id = mkDocId (k + 1)) :
    (∀ d ∈ (process_txt_file docs rawContent category language fileName
        fileStem).drop docs.length, 100 ≤ d.content.length) ∧
    (((process_txt_file docs rawContent category language fileName
        fileStem).drop docs.length).map
      (fun d => d.metadata.chunk_index)).Pairwise (· < ·) ∧
    (∀ k d, (process_txt_file docs rawContent category language fileName
        fileStem)[k]? = some d → d.id = mkDocId (k + 1)) ∧
    ((process_txt_file docs rawContent category language fileName
        fileStem).map (fun d => d.id)).Nodup := by
  by_cases hblank : pyStrip rawContent = ("")
  · unfold process_txt_file
    rw [if_pos hblank]
    refine ⟨?_, ?_, hids, ids_nodup docs hids⟩
    · intro d hd
      rw [List.drop_length] at hd
      cases hd
    · rw [List.drop_length]
      simp
  · unfold process_txt_file
    rw [if_neg hblank]
    dsimp only
    rw [processChunksFold_eq]
    exact append_newChunkDocs_invariants docs category language fileName
      (mkTitle fileStem)
      (chunk_text (clean_text rawContent) 600 50 100).length
      (chunk_text (clean_text rawContent) 600 50 100).enum
      (by rw [List.enum_map_fst]; exact List.pairwise_lt_range _) hids

/-- C8 witness: one file with a single 121-character chunk, starting
from an empty knowledge base; the resulting ids are distinct. -/
theorem process_txt_file_invariants_witness :
    ((process_txt_file [] (String.mk (List.replicate 120 ('B')) ++ ("."))
        ("faq") ("id") ("f.txt") ("01_f")).map (fun d => d.id)).Nodup := by
  exact (process_txt_file_invariants [] (String.mk (List.replicate 120 ('B')) ++
      (".")) ("faq") ("id") ("f.txt") ("01_f")
    (fun k d hd => by simp at hd)).2.2.2

/-! ### Claims about retrieval search -/

/-- C1: given the vector database's contract — at most `top_k` reply
entries, parallel arrays, non-negative distances in ascending order —
every entry of `EmbeddingService.search`'s result has
`score = 1 / (1 + distance)` and `score ≥ RAG_SCORE_THRESHOLD`, the
result has at most `top_k` entries, and it is sorted by descending
score, equivalently ascending distance. -/
theorem embedding_search_contract (reply : QueryReply) (topK : Nat)
    (hlen : reply.ids.length ≤ topK)
    (hdlen : reply.distances.length = reply.ids.length)
    (hnn : ∀ d ∈ reply.distances, (0 : ℚ) ≤ d)
    (hsorted : reply.distances.Pairwise (· ≤ ·)) :
    (∀ doc ∈ EmbeddingService.search reply,
        doc.score = 1 / (1 + doc.distance) ∧
        RAG_SCORE_THRESHOLD ≤ doc.score) ∧
    (EmbeddingService.search reply).length ≤ topK ∧
    (EmbeddingService.search reply).Pairwise
      (fun a b => b.score ≤ a.score ∧ a.distance ≤ b.distance) := by
  unfold EmbeddingService.search formatResults
  refine ⟨?_, ?_, ?_⟩
  · intro doc hdoc
    rcases List.mem_filterMap.1 hdoc with ⟨i, hi, hf⟩
    dsimp only at hf
    split at hf
    · rename_i hcond
      injection hf with hf
      subst hf
      exact ⟨rfl, hcond⟩
    · cases hf
  · calc (List.filterMap _ (List.range reply.ids.length)).length
        ≤ (List.range reply.ids.length).length :=
          List.length_filterMap_le _ _
      _ = reply.ids.length := List.length_range _
      _ ≤ topK := hlen
  · rw [List.pairwise_filterMap, List.pairwise_iff_getElem]
    intro i j hi hj hij
    have hi2 : i < reply.ids.length := by simpa using hi
    have hj2 : j < reply.ids.length := by simpa using hj
    have hdi : i < reply.distances.length := by rw [hdlen]; exact hi2
    have hdj : j < reply.distances.length := by rw [hdlen]; exact hj2
    have hle : reply.distances.getD i 0 ≤ reply.distances.getD j 0 := by
      rw [List.getD_eq_getElem _ _ hdi, List.getD_eq_getElem _ _ hdj]
      exact (List.pairwise_iff_getElem.1 hsorted) i j hdi hdj hij
    have hpos : (0 : ℚ) ≤ reply.distances.getD i 0 := by
      rw [List.getD_eq_getElem _ _ hdi]
      exact hnn _ (List.getElem_mem _)
    simp only [List.getElem_range]
    intro x hx y hy
    split at hx
    · split at hy
      · simp only [Option.mem_def, Option.some.injEq] at hx hy
        subst hx
        subst hy
        refine ⟨?_, hle⟩
        show (1 : ℚ) / (1 + reply.distances.getD j 0) ≤
          1 / (1 + reply.distances.getD i 0)
        apply one_div_le_one_div_of_le
        · linarith
        · linarith
      · cases hy
    · cases hx

/-- C1 witness: the two-entry sorted reply `sampleQueryReply` with
`top_k = 3`. -/
theorem embedding_search_contract_witness :
    (EmbeddingService.search sampleQueryReply).length ≤ 3 ∧
    (EmbeddingService.search sampleQueryReply).Pairwise
      (fun a b => b.score ≤ a.score ∧ a.distance ≤ b.distance) := by
  have h := embedding_search_contract sampleQueryReply 3
    (by norm_num [sampleQueryReply])
    (by norm_num [sampleQueryReply])
    (by intro d hd; simp [sampleQueryReply] at hd; rcases hd with rfl | rfl <;> norm_num)
    (by simp [sampleQueryReply])
  exact ⟨h.2.1, h.2.2⟩
